import Mathlib

/-!
Verification development for the tool-calling agent core of this repository.

Shallow embedding of:
- `src/modules/action.py`      (instruction line `FUNCTION_CALL: ...` decoding),
- `src/core/mcp_sse_client.py` (SSE protocol client: session handshake,
  request/response correlation, timeouts, stream-failure cancellation),
- `src/core/loop.py`           (agent control loop, side-effect tracking,
  post-loop email compensation retry).

Python strings are `String`, Python values appearing in the examined code
paths are the inductive `PyVal` (ints, strings, booleans, `None`, lists,
string-keyed dicts; floats and tuples do not occur on any examined path and
are outside the model).  Machine integers play no role.  Fallible code is
`Except String`/`Option`.  All definitions are executable.
-/

namespace Agent

/-- ASCII whitespace recognized by Python `str.strip()` and the regex `\s` on
the inputs occurring here: space (32) and the control range tab..carriage
return (9–13, covering newline, vertical tab and form feed). -/
def isWsChar (c : Char) : Bool :=
  c.toNat == 32 || (9 ≤ c.toNat && c.toNat ≤ 13)

/-- Strip `isWsChar` characters from both ends of a character list. -/
def stripList (cs : List Char) : List Char :=
  ((cs.dropWhile isWsChar).reverse.dropWhile isWsChar).reverse

/-- Python `s.strip()`. -/
def pyStrip (s : String) : String := String.mk (stripList s.data)

/-- Python `s.strip(q)` for a single character `q`: remove all leading and
trailing occurrences of `q`. -/
def pyStripChar (q : Char) (s : String) : String :=
  String.mk (((s.data.dropWhile (· == q)).reverse.dropWhile (· == q)).reverse)

/-- Boolean list prefix test (first argument: the list, second: the candidate
leading segment), used to model Python `str.startswith` and regex anchoring. -/
def listStartsWith : List Char → List Char → Bool
  | _, [] => true
  | [], _ :: _ => false
  | c :: cs, p :: ps => c == p && listStartsWith cs ps

/-- Python `s.startswith(pre)`. -/
def pyStartsWith (s pre : String) : Bool := listStartsWith s.data pre.data

/-- Python `s.endswith(suf)`. -/
def pyEndsWith (s suf : String) : Bool :=
  listStartsWith s.data.reverse suf.data.reverse

/-- Occurrence test of `sub` inside the second list, scanning left to right. -/
def listContainsSub (sub : List Char) : List Char → Bool
  | [] => listStartsWith [] sub
  | c :: rest => listStartsWith (c :: rest) sub || listContainsSub sub rest

/-- Python `sub in s` on strings. -/
def pyContains (s sub : String) : Bool := listContainsSub sub.data s.data

/-- Python `s.lower()` (ASCII case mapping, which is all the examined code
feeds it). -/
def pyLower (s : String) : String := String.mk (s.data.map Char.toLower)

/-- Split at the first occurrence of `c`: returns the characters before it and
the characters after it, or `none` when `c` is absent.  Models Python
`s.split(c, 1)`. -/
def splitFirstAt (c : Char) : List Char → Option (List Char × List Char)
  | [] => none
  | x :: rest =>
    if x == c then some ([], rest)
    else (splitFirstAt c rest).map (fun p => (x :: p.1, p.2))

/-- Split a character list at every occurrence of `c` (no quoting), modelling
Python `s.split(c)`. -/
def splitAllAt (c : Char) : List Char → List (List Char)
  | [] => [[]]
  | x :: rest =>
    let tail := splitAllAt c rest
    if x == c then [] :: tail
    else match tail with
      | [] => [[x]]
      | t :: ts => (x :: t) :: ts

/-- Python `str.splitlines()` on `\n`, `\r\n` and `\r` terminators: no trailing
empty line for a terminal line break, and the empty string yields no lines. -/
def splitlinesGo : List Char → List Char → List String
  | [], acc => [String.mk acc.reverse]
  | '\r' :: '\n' :: rest, acc =>
    if rest.isEmpty then [String.mk acc.reverse]
    else String.mk acc.reverse :: splitlinesGo rest []
  | '\n' :: rest, acc =>
    if rest.isEmpty then [String.mk acc.reverse]
    else String.mk acc.reverse :: splitlinesGo rest []
  | '\r' :: rest, acc =>
    if rest.isEmpty then [String.mk acc.reverse]
    else String.mk acc.reverse :: splitlinesGo rest []
  | c :: rest, acc => splitlinesGo rest (c :: acc)

/-- Python `s.splitlines()`. -/
def pySplitlines (s : String) : List String :=
  if s.data.isEmpty then [] else splitlinesGo s.data []

/-- Python word character for the ASCII regex class `\w`: a letter, a digit,
or the underscore (95). -/
def isWordChar (c : Char) : Bool :=
  c.isDigit || c.isAlpha || c.toNat == 95

/-- Value model for the Python values flowing through the examined code:
`None`, booleans, integers, strings, lists, and string-keyed dicts (assoc
lists preserving insertion order, as Python dicts do). -/
inductive PyVal where
  | pnone
  | pbool (b : Bool)
  | pint (n : Int)
  | pstr (s : String)
  | plist (xs : List PyVal)
  | pdict (xs : List (String × PyVal))
deriving Repr

/-- Python truthiness of a `PyVal`. -/
def pyTruthy : PyVal → Bool
  | .pnone => false
  | .pbool b => b
  | .pint n => n != 0
  | .pstr s => !s.isEmpty
  | .plist xs => !xs.isEmpty
  | .pdict xs => !xs.isEmpty

/-- First-truthy choice, modelling Python `a or b`. -/
def pyOr (a b : PyVal) : PyVal := if pyTruthy a then a else b

/-- Association-list lookup with decidable key equality (first hit wins, as in
a Python dict, which holds each key at most once). -/
def flookup {κ ν : Type} [DecidableEq κ] (k : κ) : List (κ × ν) → Option ν
  | [] => none
  | (k2, v) :: rest => if k = k2 then some v else flookup k rest

/-- Dict update `d[k] = v`: replace the value at the first occurrence of `k`,
or append the binding, preserving insertion order like a Python dict. -/
def finsert {κ ν : Type} [DecidableEq κ] (k : κ) (v : ν) : List (κ × ν) → List (κ × ν)
  | [] => [(k, v)]
  | (k2, v2) :: rest =>
    if k = k2 then (k2, v) :: rest else (k2, v2) :: finsert k v rest

/-- Dict removal `d.pop(k, None)`: drop the first binding of `k`. -/
def ferase {κ ν : Type} [DecidableEq κ] (k : κ) : List (κ × ν) → List (κ × ν)
  | [] => []
  | (k2, v2) :: rest =>
    if k = k2 then rest else (k2, v2) :: ferase k rest

/-- Skip leading whitespace inside a structured-value text. -/
def skipWs (cs : List Char) : List Char := cs.dropWhile isWsChar

/-- Hexadecimal digit value, for `\uXXXX` escapes, by code point: digits are
48–57, lowercase `a`–`f` are 97–102, uppercase `A`–`F` are 65–70. -/
def hexVal (c : Char) : Option Nat :=
  let n := c.toNat
  if 48 ≤ n && n ≤ 57 then some (n - 48)
  else if 97 ≤ n && n ≤ 102 then some (n - 87)
  else if 65 ≤ n && n ≤ 70 then some (n - 55)
  else none

/-- Decode a quoted string body up to the closing quote `qc`, handling the
escape sequences that JSON (`allowSq = false`) and Python string literals
(`allowSq = true`, which additionally accepts an escaped single quote)
support on the examined inputs.  Returns the decoded characters and the rest
after the closing quote. -/
def decodeStringBody (qc : Char) (allowSq : Bool) : Nat → List Char → Option (List Char × List Char)
  | 0, _ => none
  | _ + 1, [] => none
  | fuel + 1, c :: rest =>
    if c == qc then some ([], rest)
    else if c == '\\' then
      match rest with
      | [] => none
      | e :: rest2 =>
        let cont (ch : Char) (rem : List Char) : Option (List Char × List Char) :=
          (decodeStringBody qc allowSq fuel rem).map (fun p => (ch :: p.1, p.2))
        if e == 'n' then cont '\n' rest2
        else if e == 't' then cont '\t' rest2
        else if e == 'r' then cont '\r' rest2
        else if e == 'b' then cont '\x08' rest2
        else if e == 'f' then cont '\x0c' rest2
        else if e == '/' then cont '/' rest2
        else if e == '\\' then cont '\\' rest2
        else if e == '"' then cont '"' rest2
        else if allowSq && e == Char.ofNat 39 then cont (Char.ofNat 39) rest2
        else if e == 'u' then
          match rest2 with
          | h1 :: h2 :: h3 :: h4 :: rest3 =>
            match hexVal h1, hexVal h2, hexVal h3, hexVal h4 with
            | some a, some b, some c2, some d =>
              cont (Char.ofNat (a * 4096 + b * 256 + c2 * 16 + d)) rest3
            | _, _, _, _ => none
          | _ => none
        else none
    else (decodeStringBody qc allowSq fuel rest).map (fun p => (c :: p.1, p.2))

/-- Decimal digit run to a natural number, most significant digit first. -/
def digitsToNatAux : List Char → Nat → Nat
  | [], acc => acc
  | c :: rest, acc => digitsToNatAux rest (10 * acc + (c.toNat - 48))

/-- Digits to a natural number. -/
def digitsToNat (ds : List Char) : Nat := digitsToNatAux ds 0

/-- Decode an integer literal (optional sign when `allowPlus` permits `+`);
fails on a following `.`/`e`/`E` because the examined code never produces
floats (`PyVal` has no float). -/
def decodeInt (allowPlus : Bool) (cs : List Char) : Option (Int × List Char) :=
  let signed : Option (Bool × List Char) :=
    match cs with
    | '-' :: r => some (true, r)
    | '+' :: r => if allowPlus then some (false, r) else none
    | _ => some (false, cs)
  match signed with
  | none => none
  | some (neg, cs1) =>
    let ds := cs1.takeWhile Char.isDigit
    let rest := cs1.dropWhile Char.isDigit
    if ds.isEmpty then none
    else match rest with
      | '.' :: _ => none
      | 'e' :: _ => none
      | 'E' :: _ => none
      | _ =>
        let n : Int := Int.ofNat (digitsToNat ds)
        some (if neg then -n else n, rest)

mutual

/-- One structured value (JSON when `py = false`, Python literal when
`py = true`): strings, integers, lists/arrays, string-keyed dicts/objects and
the constant words.  Python literals additionally allow single-quoted strings
and `True`/`False`/`None`; dict keys are restricted to string literals, and
tuples/sets/floats are out of the model (decoding them fails, which the one
caller treats as "not decodable"). -/
def structVal (py : Bool) : Nat → List Char → Option (PyVal × List Char)
  | 0, _ => none
  | fuel + 1, cs0 =>
    let cs := skipWs cs0
    match cs with
    | [] => none
    | c :: rest =>
      if c == '"' then
        (decodeStringBody '"' py (rest.length + 1) rest).map
          (fun p => (PyVal.pstr (String.mk p.1), p.2))
      else if py && c == Char.ofNat 39 then
        (decodeStringBody (Char.ofNat 39) py (rest.length + 1) rest).map
          (fun p => (PyVal.pstr (String.mk p.1), p.2))
      else if c == '[' then
        let rest2 := skipWs rest
        match rest2 with
        | ']' :: rest3 => some (.plist [], rest3)
        | _ => structItems py fuel rest2 []
      else if c == '\x7b' then
        let rest2 := skipWs rest
        match rest2 with
        | '\x7d' :: rest3 => some (.pdict [], rest3)
        | _ => structMembers py fuel rest2 []
      else if py && listStartsWith cs "True".data then some (.pbool true, cs.drop 4)
      else if py && listStartsWith cs "False".data then some (.pbool false, cs.drop 5)
      else if py && listStartsWith cs "None".data then some (.pnone, cs.drop 4)
      else if !py && listStartsWith cs "true".data then some (.pbool true, cs.drop 4)
      else if !py && listStartsWith cs "false".data then some (.pbool false, cs.drop 5)
      else if !py && listStartsWith cs "null".data then some (.pnone, cs.drop 4)
      else (decodeInt py cs).map (fun p => (PyVal.pint p.1, p.2))

/-- Comma-separated list items, after at least one item is known to follow. -/
def structItems (py : Bool) : Nat → List Char → List PyVal → Option (PyVal × List Char)
  | 0, _, _ => none
  | fuel + 1, cs, acc =>
    match structVal py fuel cs with
    | none => none
    | some (v, rest) =>
      let rest := skipWs rest
      match rest with
      | ',' :: rest2 => structItems py fuel rest2 (v :: acc)
      | ']' :: rest2 => some (.plist (v :: acc).reverse, rest2)
      | _ => none

/-- Comma-separated `key: value` members with string-literal keys, after at
least one member is known to follow. -/
def structMembers (py : Bool) : Nat → List Char → List (String × PyVal) → Option (PyVal × List Char)
  | 0, _, _ => none
  | fuel + 1, cs, acc =>
    let cs := skipWs cs
    let key : Option (String × List Char) :=
      match cs with
      | '"' :: rest =>
        (decodeStringBody '"' py (rest.length + 1) rest).map
          (fun p => (String.mk p.1, p.2))
      | q :: rest =>
        if py && q == Char.ofNat 39 then
          (decodeStringBody (Char.ofNat 39) py (rest.length + 1) rest).map
            (fun p => (String.mk p.1, p.2))
        else none
      | [] => none
    match key with
    | none => none
    | some (k, rest) =>
      match skipWs rest with
      | ':' :: rest2 =>
        match structVal py fuel rest2 with
        | none => none
        | some (v, rest3) =>
          let rest3 := skipWs rest3
          match rest3 with
          | ',' :: rest4 => structMembers py fuel rest4 ((k, v) :: acc)
          | '\x7d' :: rest4 => some (.pdict ((k, v) :: acc).reverse, rest4)
          | _ => none
      | _ => none

end

/-- Model of `json.loads` on the value grammar the examined code feeds it
(objects, arrays, strings, integers, `true`/`false`/`null`).  `none` stands
for `json.JSONDecodeError`. -/
def json_loads (s : String) : Option PyVal :=
  match structVal false (2 * s.data.length + 8) s.data with
  | some (v, rest) => if (skipWs rest).isEmpty then some v else none
  | none => none

/-- Model of `ast.literal_eval` on the value grammar the examined code feeds
it (strings in either quote style, signed integers, booleans, `None`, lists,
string-keyed dicts).  `none` stands for the raised `ValueError`/`SyntaxError`. -/
def literal_eval (s : String) : Option PyVal :=
  match structVal true (2 * s.data.length + 8) s.data with
  | some (v, rest) => if (skipWs rest).isEmpty then some v else none
  | none => none

/-! ## Instruction decoding — `src/modules/action.py`, `parse_function_call` -/

/-- Scanner state for the character-by-character parameter split of
`parse_function_call` (lines 58–98 of `src/modules/action.py`): accumulated
parts, current part (reversed), quote state, and bracket/brace depths. -/
structure ScanSt where
  parts : List String
  cur : List Char
  inQuotes : Bool
  quoteChar : Char
  bracketDepth : Int
  braceDepth : Int

/-- Initial scanner state. -/
def scanInit : ScanSt :=
  { parts := [], cur := [], inQuotes := false, quoteChar := ' ',
    bracketDepth := 0, braceDepth := 0 }

/-- Close out the current part: strip it and append it unless empty
(`if current_part.strip(): param_parts.append(current_part.strip())`). -/
def scanFlush (st : ScanSt) : ScanSt :=
  let p := stripList st.cur.reverse
  { st with cur := [],
            parts := if p.isEmpty then st.parts else st.parts ++ [String.mk p] }

/-- The character scan of `parse_function_call`: split the parameter text on
`|` while ignoring `|` inside quoted strings and inside `[...]`/`{...}`
nesting; a quote preceded by a backslash does not toggle quote state.
`prev` is the previously seen character (`param_str[i-1]`). -/
def scanParams : List Char → Option Char → ScanSt → List String
  | [], _, st => (scanFlush st).parts
  | c :: rest, prev, st =>
    let st' :=
      if (c == '"' || c == Char.ofNat 39) && prev ≠ some '\\' then
        if !st.inQuotes then
          { st with inQuotes := true, quoteChar := c, cur := c :: st.cur }
        else if c == st.quoteChar then
          { st with inQuotes := false, cur := c :: st.cur }
        else { st with cur := c :: st.cur }
      else if c == '[' && !st.inQuotes then
        { st with bracketDepth := st.bracketDepth + 1, cur := c :: st.cur }
      else if c == ']' && !st.inQuotes then
        { st with bracketDepth := st.bracketDepth - 1, cur := c :: st.cur }
      else if c == '\x7b' && !st.inQuotes then
        { st with braceDepth := st.braceDepth + 1, cur := c :: st.cur }
      else if c == '\x7d' && !st.inQuotes then
        { st with braceDepth := st.braceDepth - 1, cur := c :: st.cur }
      else if c == '|' && !st.inQuotes && st.bracketDepth == 0 && st.braceDepth == 0 then
        scanFlush st
      else { st with cur := c :: st.cur }
    scanParams rest (some c) st'

/-- Drop the last `n` characters of a string (Python `key[:-n]`). -/
def pyDropRight (s : String) (n : Nat) : String :=
  String.mk (s.data.take (s.data.length - n))

/-- Value decoding for one `key=val` parameter (lines 110–132): a `_json` key
tries `json.loads` then `ast.literal_eval` and strips the suffix exactly when
one of them succeeds; any other key tries `ast.literal_eval`, then
`json.loads`, then falls back to the value with surrounding quotes stripped. -/
def decodeParamVal (key val : String) : String × PyVal :=
  if pyEndsWith key "_json" then
    match json_loads val with
    | some v => (pyDropRight key 5, v)
    | none =>
      match literal_eval val with
      | some v => (pyDropRight key 5, v)
      | none => (key, .pstr val)
  else
    match literal_eval val with
    | some v => (key, v)
    | none =>
      match json_loads val with
      | some v => (key, v)
      | none =>
        (key, .pstr (pyStripChar (Char.ofNat 39) (pyStripChar '"' (pyStrip val))))

/-- Write a value at a dotted key path (lines 134–139): walk
`current.setdefault(k, {})` through the leading keys and assign at the last.
Descending into an existing non-dict value models the `TypeError`/
`AttributeError` Python raises there. -/
def setNested (args : List (String × PyVal)) : List String → PyVal → Except String (List (String × PyVal))
  | [], _ => .error "empty key path"
  | [k], v => .ok (finsert k v args)
  | k :: k2 :: rest, v =>
    match flookup k args with
    | some (.pdict d) =>
      (setNested d (k2 :: rest) v).map (fun d2 => finsert k (.pdict d2) args)
    | some _ => .error "object does not support item assignment"
    | none =>
      (setNested [] (k2 :: rest) v).map (fun d2 => finsert k (.pdict d2) args)

/-- Process the scanned parameter parts (lines 100–139): skip parts without
`=`, split each at the first `=`, strip key and value, decode the value, and
write it at the (possibly dotted) key path. -/
def buildArgs : List String → List (String × PyVal) → Except String (List (String × PyVal))
  | [], args => .ok args
  | part :: rest, args =>
    match splitFirstAt '=' part.data with
    | none => buildArgs rest args
    | some (k, v) =>
      let kv := decodeParamVal (pyStrip (String.mk k)) (pyStrip (String.mk v))
      let keys := (splitAllAt '.' kv.1.data).map String.mk
      match setNested args keys kv.2 with
      | .ok args2 => buildArgs rest args2
      | .error e => .error e

/-- Model of `parse_function_call` (`src/modules/action.py`, lines 24–146):
decode one `FUNCTION_CALL: name|key=value|...` planner line into a tool name
and argument dict.  `Except.error` stands for the exception the Python
function raises (re-raised after logging).  The tool name is taken by the
anchored regex `^(\w+)\|` on the text after the first `:`; since that text
begins with the space following the colon, the regex never matches for the
usual `FUNCTION_CALL: name|...` shape and the fallback path
(`raw.split('|')[0].strip()` plus `raw[len(tool_name):].lstrip('|')`) runs,
whose off-by-one leaves a separator-free fragment that the parameter pass
then skips. -/
def parse_function_call (response : String) : Except String (String × List (String × PyVal)) :=
  if !pyStartsWith response "FUNCTION_CALL:" then .error "Invalid function call format."
  else
    match splitFirstAt ':' response.data with
    | none => .error "Invalid function call format."
    | some (_, rawL) =>
      let wordRun := rawL.takeWhile isWordChar
      let regexHit := !wordRun.isEmpty &&
        (match rawL.drop wordRun.length with | '|' :: _ => true | _ => false)
      if regexHit then
        (buildArgs (scanParams (rawL.drop (wordRun.length + 1)) none scanInit) []).map
          (fun args => (String.mk wordRun, args))
      else if !(rawL.contains '|') && !(rawL.contains '=') then
        .ok (pyStrip (String.mk rawL), [])
      else
        let toolName := pyStrip (String.mk (rawL.takeWhile (· ≠ '|')))
        let paramL := (rawL.drop toolName.data.length).dropWhile (· == '|')
        (buildArgs (scanParams paramL none scanInit) []).map
          (fun args => (toolName, args))

/-! ## Protocol client — `src/core/mcp_sse_client.py`, `MCPSseClient` -/

/-- One pending-request result slot (`asyncio.Future`): unresolved, fulfilled
with the matched response message, or failed with an error message. -/
inductive FutureState where
  | pendingF
  | okF (v : PyVal)
  | errF (msg : String)
deriving Repr

/-- A future is done once fulfilled or failed (`future.done()`). -/
def futureDone : FutureState → Bool
  | .pendingF => false
  | .okF _ => true
  | .errF _ => true

/-- State of one `MCPSseClient`: the request-id counter, the pending-request
correlation table, the session token and its arrived-signal, and the current
SSE event type being read. -/
structure ClientState where
  requestCounter : Int
  pending : List (Int × FutureState)
  sessionId : Option String
  sessionIdEventSet : Bool
  currentEvent : Option String
deriving Repr

/-- Fresh client (`MCPSseClient.__init__`). -/
def clientInit : ClientState :=
  { requestCounter := 0, pending := [], sessionId := none,
    sessionIdEventSet := false, currentEvent := none }

/-- The session-token wait budget of `_connect_sse` (seconds). -/
def sessionIdTimeoutSeconds : Nat := 5

/-- The per-request response wait budget of `send_message` (seconds). -/
def requestTimeoutSeconds : Nat := 30

/-- Character class of the regex `session_id=([a-f0-9-]+)`. -/
def isSidChar (c : Char) : Bool :=
  ('a' ≤ c && c ≤ 'f') || c.isDigit || c == '-'

/-- Model of `re.search(r'session_id=([a-f0-9-]+)', data)`: leftmost position
where `session_id=` is followed by at least one class character; the capture
is the maximal class-character run. -/
def searchSessionId : List Char → Option String
  | [] => none
  | c :: rest =>
    let cs := c :: rest
    if listStartsWith cs "session_id=".data then
      let tok := (cs.drop 11).takeWhile isSidChar
      if tok.isEmpty then searchSessionId rest else some (String.mk tok)
    else searchSessionId rest

/-- Response correlation (`_process_sse_stream`, lines 150–159): a decoded
message dict carrying an `id` that matches a pending, not-yet-done slot
fulfils that slot with the whole message; anything else changes nothing. -/
def correlate (st : ClientState) (message : PyVal) : ClientState :=
  match message with
  | .pdict d =>
    match flookup "id" d with
    | some (.pint k) =>
      match flookup k st.pending with
      | some .pendingF => { st with pending := finsert k (.okF (.pdict d)) st.pending }
      | _ => st
    | _ => st
  | _ => st

/-- One line of the SSE stream (`_process_sse_stream`, lines 122–164): blank
lines are skipped; `event: ` lines set the current event type; `data: ` lines
are handled as the session-token `endpoint` event (when the current event is
`endpoint` and the payload contains `session_id=` and the token regex
matches) or as a protocol message (when the current event is `message` or
unset), after which the current event resets. -/
def processSseLine (st : ClientState) (line : String) : ClientState :=
  if (stripList line.data).isEmpty then st
  else if pyStartsWith line "event: " then
    { st with currentEvent := some (pyStrip (String.mk (line.data.drop 7))) }
  else if pyStartsWith line "data: " then
    let data := String.mk (line.data.drop 6)
    let endpointHit :=
      st.currentEvent == some "endpoint" && pyContains data "session_id="
    if endpointHit then
      match searchSessionId data.data with
      | some sid =>
        { st with sessionId := some sid, sessionIdEventSet := true, currentEvent := none }
      | none => { st with currentEvent := none }
    else
      let st2 :=
        if st.currentEvent == some "message" ||
           st.currentEvent == none || st.currentEvent == some "" then
          match json_loads data with
          | some m => correlate st m
          | none => st
        else st
      { st2 with currentEvent := none }
  else st

/-- Stream-failure handler (`_process_sse_stream`, lines 166–174): every
still-pending slot is failed with the stream error in one pass over the
table; already-done slots and the table's keys are untouched. -/
def failAllPending (st : ClientState) (msg : String) : ClientState :=
  { st with pending := st.pending.map (fun p =>
      if futureDone p.2 then p else (p.1, .errF msg)) }

/-- Model of `_connect_sse` (lines 77–116): feed the lines the stream delivers
within the wait budget through the SSE processor; if the session-token event
was signalled, connection setup yields the token, otherwise it fails with the
connection-establishment timeout error. -/
def connectSse (sseUrl : String) (lines : List String) : Except String String :=
  let st := lines.foldl processSseLine clientInit
  if st.sessionIdEventSet then
    match st.sessionId with
    | some sid => .ok sid
    | none => .error "Session ID event was set but session_id is still None"
  else
    .error ("Failed to receive session_id from SSE server at " ++ sseUrl ++
      " within 5 seconds. Make sure the server is running and accessible.")

/-- What the environment does with one `send_message` call after the slot is
registered: the correlated response arrives in time, nothing arrives within
the 30-second budget, the background reader fails the slot with a stream
error, or the POST itself fails (`raise_for_status`). -/
inductive SendOutcome where
  | respond (v : PyVal)
  | timeout
  | streamFail (msg : String)
  | postError (msg : String)

/-- Observables of one `send_message` call: the state afterwards, the message
dict as posted (which is also what the caller's dict holds afterwards, since
the id is written into it in place), the key the pending slot was registered
under, the table right after registration, and the returned or raised result. -/
structure SendResult where
  state : ClientState
  wireMessage : List (String × PyVal)
  slotKey : Int
  registeredPending : List (Int × FutureState)
  result : Except String PyVal

/-- Model of `send_message` (lines 206–254): requires an established session;
increments the request counter, registers a pending slot under the fresh
counter value, writes that id into the message only when the message lacks
one, posts it, then awaits the slot with the 30-second budget.  A timeout
raises `Request {id} timed out`; a stream failure raises the stream error;
in every case the `finally` block removes the slot from the table. -/
def send_message (st : ClientState) (message : List (String × PyVal))
    (outcome : SendOutcome) : SendResult :=
  match st.sessionId with
  | none =>
    { state := st, wireMessage := message, slotKey := 0, registeredPending := st.pending,
      result := .error "No session_id available. SSE connection not established." }
  | some _ =>
    let rid := st.requestCounter + 1
    let registered := finsert rid FutureState.pendingF st.pending
    let wire :=
      match flookup "id" message with
      | some _ => message
      | none => finsert "id" (.pint rid) message
    let res : Except String PyVal :=
      match outcome with
      | .respond v => .ok v
      | .timeout => .error ("Request " ++ toString rid ++ " timed out")
      | .streamFail m => .error m
      | .postError m => .error m
    { state := { st with requestCounter := rid, pending := ferase rid registered },
      wireMessage := wire, slotKey := rid, registeredPending := registered,
      result := res }

/-! ## Control loop — `src/core/loop.py`, `AgentLoop` -/

/-- Escape one character inside a Python string repr with quote `qc`
(covers the escapes occurring on the examined inputs: backslash, the quote
character, newline, carriage return, tab; other characters pass through). -/
def pyReprEsc (qc c : Char) : List Char :=
  if c == '\\' then ['\\', '\\']
  else if c == qc then ['\\', c]
  else if c == '\n' then ['\\', 'n']
  else if c == '\r' then ['\\', 'r']
  else if c == '\t' then ['\\', 't']
  else [c]

/-- Python `repr` of a string: single quotes, switching to double quotes when
the text contains a single quote but no double quote. -/
def pyReprStr (s : String) : String :=
  let sq := Char.ofNat 39
  let qc := if s.data.contains sq && !s.data.contains '"' then '"' else sq
  String.mk (qc :: (s.data.flatMap (pyReprEsc qc)) ++ [qc])

mutual

/-- Python `repr` of a `PyVal` (what `str` applies to non-string values and
to elements of containers). -/
def pyRepr : PyVal → String
  | .pnone => "None"
  | .pbool true => "True"
  | .pbool false => "False"
  | .pint n => toString n
  | .pstr s => pyReprStr s
  | .plist xs => "[" ++ pyReprItems xs ++ "]"
  | .pdict xs => "\x7b" ++ pyReprMembers xs ++ "\x7d"

/-- Comma-joined element reprs of a list. -/
def pyReprItems : List PyVal → String
  | [] => ""
  | [x] => pyRepr x
  | x :: y :: rest => pyRepr x ++ ", " ++ pyReprItems (y :: rest)

/-- Comma-joined `key: value` reprs of a dict. -/
def pyReprMembers : List (String × PyVal) → String
  | [] => ""
  | [(k, v)] => pyReprStr k ++ ": " ++ pyRepr v
  | (k, v) :: m :: rest => pyReprStr k ++ ": " ++ pyRepr v ++ ", " ++ pyReprMembers (m :: rest)

end

/-- Python `str()` of a `PyVal`: strings unchanged, everything else its repr. -/
def pyStr : PyVal → String
  | .pstr s => s
  | v => pyRepr v

/-- JSON string quoting for `json.dumps`. -/
def jsonQuote (s : String) : String :=
  String.mk ('"' :: (s.data.flatMap (pyReprEsc '"')) ++ ['"'])

mutual

/-- Model of `json.dumps(v, indent=2)` up to insignificant whitespace layout
(the dumped text is only ever displayed or scanned for URL/status substrings,
which the indentation whitespace cannot affect). -/
def jsonDumps : PyVal → String
  | .pnone => "null"
  | .pbool true => "true"
  | .pbool false => "false"
  | .pint n => toString n
  | .pstr s => jsonQuote s
  | .plist xs => "[" ++ jsonDumpsItems xs ++ "]"
  | .pdict xs => "\x7b" ++ jsonDumpsMembers xs ++ "\x7d"

/-- Comma-joined dumped elements. -/
def jsonDumpsItems : List PyVal → String
  | [] => ""
  | [x] => jsonDumps x
  | x :: y :: rest => jsonDumps x ++ ", " ++ jsonDumpsItems (y :: rest)

/-- Comma-joined dumped `key: value` members. -/
def jsonDumpsMembers : List (String × PyVal) → String
  | [] => ""
  | [(k, v)] => jsonQuote k ++ ": " ++ jsonDumps v
  | (k, v) :: m :: rest => jsonQuote k ++ ": " ++ jsonDumps v ++ ", " ++ jsonDumpsMembers (m :: rest)

end

/-- Character class `[a-zA-Z0-9_-]` of the sheet-URL regex. -/
def isUrlIdChar (c : Char) : Bool := c.isAlphanum || c == '_' || c == '-'

/-- Model of
`re.search(r'https://docs\.google\.com/spreadsheets/d/[a-zA-Z0-9_-]+', text)`:
leftmost occurrence of the literal prefix followed by at least one id
character; the whole match extends over the maximal id-character run. -/
def searchSheetUrl : List Char → Option String
  | [] => none
  | c :: rest =>
    let cs := c :: rest
    if listStartsWith cs "https://docs.google.com/spreadsheets/d/".data then
      let tok := (cs.drop 39).takeWhile isUrlIdChar
      if tok.isEmpty then searchSheetUrl rest
      else some (String.mk ("https://docs.google.com/spreadsheets/d/".data ++ tok))
    else searchSheetUrl rest

/-- Shared tail of the title regexes: `\s*"([^"]+)"` — skip whitespace, then a
double-quoted nonempty run of non-quote characters; returns the capture. -/
def matchQuotedTitle (cs : List Char) : Option String :=
  match cs.dropWhile isWsChar with
  | '"' :: rest =>
    let tok := rest.takeWhile (· ≠ '"')
    if tok.isEmpty then none
    else match rest.drop tok.length with
      | '"' :: _ => some (String.mk tok)
      | _ => none
  | _ => none

/-- Model of `re.search(r'"title":\s*"([^"]+)"', text)` returning group 1. -/
def searchTitleJson : List Char → Option String
  | [] => none
  | c :: rest =>
    let cs := c :: rest
    if listStartsWith cs "\x22title\x22:".data then
      match matchQuotedTitle (cs.drop 8) with
      | some t => some t
      | none => searchTitleJson rest
    else searchTitleJson rest

/-- Model of `re.search(r'title[=:]\s*"([^"]+)"', text)` returning group 1. -/
def searchTitleEq : List Char → Option String
  | [] => none
  | c :: rest =>
    let cs := c :: rest
    let hit :=
      if listStartsWith cs "title".data then
        match cs.drop 5 with
        | d :: rest2 =>
          if d == '=' || d == ':' then matchQuotedTitle rest2 else none
        | [] => none
      else none
    match hit with
    | some t => some t
    | none => searchTitleEq rest

/-- Memory record appended by the Control Loop after each tool call.
`modules/memory.py` is not under `src/`; the field shape is read off the
`MemoryItem(...)` call sites in `src/core/loop.py` (lines 361–368, 391–398). -/
structure MemoryItem where
  text : String
  mtype : String
  toolName : String
  userQuery : String
  tags : List String
  sessionId : String
deriving Repr

/-- Modelled from the spec: `core/context.py` (`AgentContext`) is not under
`src/`; fields follow spec §3 — session id, current step index, accumulated
final answer (absent until set), the side-effect flags "artifact created" and
"notification sent", the artifact reference (created sheet's URL and title,
held as the Python values the loop stores there), plus the append-only memory
log the Control Loop writes. -/
structure AgentContext where
  sessionId : String
  userInput : String
  step : Nat
  finalAnswer : Option String
  sheetCreated : Bool
  sheetUrl : PyVal
  sheetTitle : PyVal
  emailSent : Bool
  memory : List MemoryItem
deriving Repr

/-- Context at the start of a run (spec §3: flags down, no final answer). -/
def initialContext (sessionId userInput : String) : AgentContext :=
  { sessionId := sessionId, userInput := userInput, step := 0,
    finalAnswer := none, sheetCreated := false, sheetUrl := .pnone,
    sheetTitle := .pnone, emailSent := false, memory := [] }

/-- One registered tool as the loop sees it: its name and the names of its
declared input parameters (`tool_expects_input` unifies the dict (SSE) and
object (stdio) representations into exactly this data before deciding). -/
structure ToolDesc where
  name : String
  paramNames : List String

/-- Model of `AgentLoop.tool_expects_input` (lines 19–45): the first tool with
a matching name decides; true iff its declared parameter-name list is exactly
`["input"]`. -/
def tool_expects_input (tools : List ToolDesc) (toolName : String) : Bool :=
  match tools.find? (fun t => t.name == toolName) with
  | some t => t.paramNames == ["input"]
  | none => false

/-- Python dict `get` with default `None`. -/
def pyGet (d : List (String × PyVal)) (k : String) : PyVal :=
  (flookup k d).getD .pnone

/-- Python dict `get` with an explicit default. -/
def pyGetD (d : List (String × PyVal)) (k : String) (dflt : PyVal) : PyVal :=
  (flookup k d).getD dflt

/-- Lines 234–238 (and 85–89 of the compensation step): parse the extracted
response text as JSON when it starts with `{`, keep the text otherwise
(`json.JSONDecodeError` falls back to the text). -/
def computeResultObj (raw : String) : PyVal :=
  if pyStartsWith (pyStrip raw) "\x7b" then
    match json_loads raw with
    | some v => v
    | none => .pstr raw
  else .pstr raw

/-- Lines 240–248: the display string — for a dict the first truthy of its
`markdown`, `text`, `sheet_url` entries, else the dict dumped as JSON; for
anything else its `str()`. -/
def computeResultStr (result_obj : PyVal) : PyVal :=
  match result_obj with
  | .pdict d =>
    pyOr (pyOr (pyOr (pyGet d "markdown") (pyGet d "text")) (pyGet d "sheet_url"))
      (.pstr (jsonDumps result_obj))
  | v => .pstr (pyStr v)

/-- Sheet-creation tracking (lines 253–330): compute the extracted
`(sheet_url, sheet_title)` pair; `none` models the one reachable exception
(`re.search` on a non-string `text` content entry, line 285), which the outer
handler at line 327 turns into "no update". -/
def trackSheet (arguments : List (String × PyVal)) (result_obj result_str : PyVal) :
    Option (PyVal × PyVal) :=
  let fromDict : Option (PyVal × PyVal) :=
    match result_obj with
    | .pdict d =>
      let url1 := pyOr (pyGet d "sheet_url") (pyGet d "url")
      let step2 : Option (PyVal × PyVal) :=
        if pyTruthy url1 then some (url1, .pnone)
        else
          match pyGetD d "content" (.plist []) with
          | .plist (first :: _) =>
            match first with
            | .pdict fd =>
              let contentText := pyGetD fd "text" (.pstr "")
              let fromJson : PyVal × PyVal :=
                match contentText with
                | .pstr t =>
                  match json_loads t with
                  | some (.pdict cd) =>
                    (pyOr (pyGet cd "sheet_url") (pyGet cd "url"),
                     pyOr (pyGet cd "worksheet_name") (pyGet cd "title"))
                  | _ => (.pnone, .pnone)
                | _ => (.pnone, .pnone)
              if pyTruthy fromJson.1 then some fromJson
              else
                match contentText with
                | .pstr t =>
                  match searchSheetUrl t.data with
                  | some u => some (.pstr u, fromJson.2)
                  | none => some (.pnone, fromJson.2)
                | _ => none
            | _ => some (url1, .pnone)
          | _ => some (url1, .pnone)
      step2.map (fun p =>
        if !pyTruthy p.1 && (flookup "text" d).isSome then
          match searchSheetUrl (pyStr (pyGet d "text")).data with
          | some u => (.pstr u, p.2)
          | none => p
        else p)
    | _ => some (.pnone, .pnone)
  match fromDict with
  | none => none
  | some (url3, title3) =>
    let url4 :=
      if !pyTruthy url3 then
        match result_str with
        | .pstr t =>
          match searchSheetUrl t.data with
          | some u => PyVal.pstr u
          | none => url3
        | _ => url3
      else url3
    -- lines 304–307: the conditional expression parses as
    -- `(args.get("title") or args.get("input", {}).get("title"))
    --    if isinstance(args.get("input"), dict) else None`,
    -- so this assignment unconditionally overwrites any title found above
    let _ := title3
    let title4 : PyVal :=
      match flookup "input" arguments with
      | some (.pdict inputD) => pyOr (pyGet arguments "title") (pyGet inputD "title")
      | _ => .pnone
    let title5 :=
      if !pyTruthy title4 then
        match searchTitleJson (pyStr result_str).data with
        | some t => PyVal.pstr t
        | none =>
          match searchTitleEq (pyStr result_str).data with
          | some t => PyVal.pstr t
          | none => title4
      else title4
    some (url4, title5)

/-- Lines 318–326: store a truthy extracted URL (setting the artifact-created
flag) and a truthy extracted title; otherwise leave the context alone. -/
def applySheetTracking (ctx : AgentContext) (tr : Option (PyVal × PyVal)) : AgentContext :=
  match tr with
  | none => ctx
  | some (url, title) =>
    if pyTruthy url then
      let ctx2 := { ctx with sheetUrl := url, sheetCreated := true }
      if pyTruthy title then { ctx2 with sheetTitle := title } else ctx2
    else ctx

/-- Email delivery tracking (lines 333–358): the flag becomes true when the
`status` field of a dict result (or, for a non-dict result, the whole display
string) contains a success word (`sent`, and for the dict case also
`simulated`) and not `failed`; in every other case the flag keeps its value —
in particular it is never assigned `false`.  (The `failed`/unclear branches
only log; the `message_id` field is only read for logging.) -/
def trackEmail (result_obj result_str : PyVal) (emailSent : Bool) : Bool :=
  match result_obj with
  | .pdict d =>
    let status := pyLower (pyStr (pyGetD d "status" (.pstr "")))
    if (pyContains status "sent" || pyContains status "simulated") &&
       !pyContains status "failed" then true
    else emailSent
  | _ =>
    let status_str := pyLower (pyStr result_str)
    if pyContains status_str "sent" && !pyContains status_str "failed" then true
    else emailSent

/-- The follow-up query after a successful tool call (lines 372–381). -/
def nextQueryTemplate (userInput resultStr : String) : String :=
  "Original user task: " ++ userInput ++
  "\n\n    Your last tool produced this result:\n\n    " ++ resultStr ++
  "\n\n    If this fully answers the task, return:\n    FINAL_ANSWER: your answer" ++
  "\n\n    Otherwise, return the next FUNCTION_CALL."

/-- The follow-up query after a recoverable tool failure (lines 401–405). -/
def errorQueryTemplate (userInput errMsg : String) : String :=
  "Original user task: " ++ userInput ++
  "\n\nYour last tool (email sending) failed with error: " ++ errMsg ++
  "\n\nPlease try to send the email again or return FINAL_ANSWER if you cannot."

/-- What the external perception step (`extract_perception`,
`modules/perception.py`, not under `src/`) hands back for one step: it raised,
returned a string, returned a `PerceptionResult`, or returned some other
object.  `pydanticOk` resolves the external `PerceptionResult(**mapping)`
construction (pydantic) on the paths where the loop attempts it. -/
inductive PerceptionOutcome where
  | raisesP (msg : String)
  | strP (s : String) (pydanticOk : Bool)
  | structuredP
  | otherP (pydanticOk : Bool)

/-- What the external planner (`decide_next_action`, `core/strategy.py`, not
under `src/`) hands back: it raised, or produced one plan line. -/
inductive PlanOutcome where
  | raisesD (msg : String)
  | lineD (plan : String)

/-- What the dispatched tool call (`self.mcp.call_tool`, external backend)
does: it raised with message `str(e)`, or returned a response whose extracted
text content is `raw`. -/
inductive CallOutcome where
  | raisesC (msg : String)
  | returnsC (raw : String)

/-- The external collaborators' behavior for one loop step.
`retrieveRaises` covers `self.context.memory.retrieve` (external memory
manager) raising. -/
structure StepEvent where
  perception : PerceptionOutcome
  retrieveRaises : Option String
  plan : PlanOutcome
  call : CallOutcome

/-- How one step of the `for` loop ends: proceed to the next step with a new
query, `break` out of the loop, or let an exception escape to the outer
`except` handler (line 411) — both of the latter continue at post-processing. -/
inductive StepOutcome where
  | contS (ctx : AgentContext) (query : String)
  | brkS (ctx : AgentContext)
  | abortS (ctx : AgentContext)

/-- The context a step outcome carries forward. -/
def outCtx : StepOutcome → AgentContext
  | .contS c _ => c
  | .brkS c => c
  | .abortS c => c

/-- Recorded final answers are nonempty strings: the invariant that makes the
Python `or`-with-placeholder of line 419 return exactly the recorded answer. -/
def answerOk : Option String → Prop
  | none => True
  | some s => s ≠ ""

/-- The error-message test of the tool-failure handler (line 388): the
lowercased exception text contains `send_sheet_link`, `send_email`, or
`gmail`.  Note it inspects the message, not the failing tool's name. -/
def emailErrorKeyword (msg : String) : Bool :=
  pyContains (pyLower msg) "send_sheet_link" ||
  pyContains (pyLower msg) "send_email" ||
  pyContains (pyLower msg) "gmail"

/-- The tool-execution `except` handler (lines 382–409): an email-flavored
error message logs a `tool_error` memory (with `tool_name` hardcoded to
`send_sheet_link`), rewrites the next query to mention the failure, and
continues; any other message breaks the loop, leaving the context untouched. -/
def toolErrorStep (errMsg query : String) (ctx : AgentContext) : StepOutcome :=
  if emailErrorKeyword errMsg then
    let item : MemoryItem :=
      { text := "Email sending failed: " ++ errMsg, mtype := "tool_error",
        toolName := "send_sheet_link", userQuery := query,
        tags := ["email_error"], sessionId := ctx.sessionId }
    .contS { ctx with memory := ctx.memory ++ [item] }
      (errorQueryTemplate ctx.userInput errMsg)
  else .brkS ctx

/-- Tool execution (lines 212–409): decode the plan line, wrap the arguments
when the tool declares the single `input` parameter, call the tool, normalize
the result, update the side-effect flags, append the `tool_output` memory and
build the next query; a raise from decoding or from the call goes to
`toolErrorStep`. -/
def actStep (tools : List ToolDesc) (call : CallOutcome) (plan query : String)
    (ctx : AgentContext) : StepOutcome :=
  match parse_function_call plan with
  | .error e => toolErrorStep e query ctx
  | .ok (toolName, arguments) =>
    let _toolInput : List (String × PyVal) :=
      if tool_expects_input tools toolName then
        if (flookup "input" arguments).isSome then arguments
        else [("input", .pdict arguments)]
      else arguments
    match call with
    | .raisesC msg => toolErrorStep msg query ctx
    | .returnsC raw =>
      let result_obj := computeResultObj raw
      let result_str := computeResultStr result_obj
      let ctx2 :=
        if toolName == "create_google_sheet" then
          applySheetTracking ctx (trackSheet arguments result_obj result_str)
        else ctx
      let ctx3 :=
        if toolName == "send_sheet_link" || toolName == "send_email" then
          { ctx2 with emailSent := trackEmail result_obj result_str ctx2.emailSent }
        else ctx2
      let item : MemoryItem :=
        { text := toolName ++ "(" ++ pyRepr (.pdict arguments) ++ ") → " ++ pyStr result_str,
          mtype := "tool_output", toolName := toolName, userQuery := query,
          tags := [toolName], sessionId := ctx.sessionId }
      .contS { ctx3 with memory := ctx3.memory ++ [item] }
        (nextQueryTemplate ctx.userInput (pyStr result_str))

/-- Retrieval, planning and acting (lines 184–409), reached once perception
produced a usable result: an exception from retrieval or planning escapes to
the outer handler; a plan line containing `FINAL_ANSWER:` records the last
final-answer line (or the could-not-extract placeholder) and breaks;
otherwise the step acts. -/
def afterPerception (tools : List ToolDesc) (ev : StepEvent) (query : String)
    (ctx : AgentContext) : StepOutcome :=
  match ev.retrieveRaises with
  | some _ => .abortS ctx
  | none =>
    match ev.plan with
    | .raisesD _ => .abortS ctx
    | .lineD plan =>
      if pyContains plan "FINAL_ANSWER:" then
        let finalLines := (pySplitlines plan).filter
          (fun l => pyStartsWith (pyStrip l) "FINAL_ANSWER:")
        match finalLines.getLast? with
        | some l => .brkS { ctx with finalAnswer := some (pyStrip l) }
        | none =>
          let ph := "FINAL_ANSWER: [result found, but could not extract]"
          .brkS { ctx with finalAnswer := some ph }
      else actStep tools ev.call plan query ctx

/-- One step of the `for` loop (lines 135–409).  A string perception result is
branched on its text (final-answer marker → record and break; prompt-echo
marker → placeholder and break; non-JSON → placeholder and break; a JSON
string is decoded — a decoded string decodes once more — and handed to the
external `PerceptionResult(**...)`, whose failure breaks with nothing set);
a `PerceptionResult` proceeds; any other object is handed to
`PerceptionResult(**...)` likewise. -/
def stepResult (tools : List ToolDesc) (ev : StepEvent) (query : String)
    (ctx : AgentContext) : StepOutcome :=
  match ev.perception with
  | .raisesP _ => .abortS ctx
  | .strP s pydOk =>
    let pr := pyStrip s
    if pyStartsWith pr "FINAL_ANSWER:" then
      .brkS { ctx with finalAnswer := some pr }
    else if pyContains pr "Your last tool produced this result" ||
            pyContains pr "Original user task:" then
      .brkS { ctx with finalAnswer := some "FINAL_ANSWER: [no result]" }
    else
      match json_loads pr with
      | none => .brkS { ctx with finalAnswer := some "FINAL_ANSWER: [no result]" }
      | some v =>
        let v2 : Option PyVal :=
          match v with
          | .pstr s2 => json_loads s2
          | other => some other
        match v2 with
        | none => .brkS ctx
        | some (.pdict _) =>
          if pydOk then afterPerception tools ev query ctx else .brkS ctx
        | some _ => .brkS ctx
  | .structuredP => afterPerception tools ev query ctx
  | .otherP pydOk =>
    if pydOk then afterPerception tools ev query ctx else .brkS ctx

/-- The bounded `for` loop (lines 135–409): run up to `remaining` more steps,
feeding each step the collaborators' behavior `events i` for its index;
`break` and escaped exceptions end the loop with the context reached so far. -/
def runSteps (tools : List ToolDesc) (events : Nat → StepEvent) :
    Nat → Nat → String → AgentContext → AgentContext
  | 0, _, _, ctx => ctx
  | remaining + 1, i, query, ctx =>
    let ctx1 := { ctx with step := i }
    match stepResult tools (events i) query ctx1 with
    | .contS ctx2 q2 => runSteps tools events remaining (i + 1) q2 ctx2
    | .brkS ctx2 => ctx2
    | .abortS ctx2 => ctx2

/-- What one compensation attempt's `send_sheet_link` call (external backend)
does: raise, or return a response whose extracted text is `raw`. -/
inductive AttemptOutcome where
  | raisesA (msg : String)
  | returnsA (raw : String)

/-- Observables of the compensation step: the context afterwards, the
`asyncio.sleep` durations performed between attempts (in order), and how many
delivery attempts were made. -/
structure EnsureTrace where
  ctx : AgentContext
  delays : List Nat
  attempts : Nat

/-- Status-string computation of one compensation attempt (lines 74–97): the
response text is parsed like the main loop's, then the `status` field of a
dict result (or the `str()` of anything else) is the inspected string. -/
def ensureResultStr (raw : String) : String :=
  match computeResultObj raw with
  | .pdict d => pyStr (pyGetD d "status" (.pstr ""))
  | v => pyStr v

/-- The retry loop of `_ensure_email_sent` (lines 63–126), `remaining`
attempts left of `maxRetries`: a success-worded or ambiguous-but-error-free
status sets the delivered flag and returns; a failure-worded or erroneous
status retries with no sleep; a raised attempt sleeps `2 ** attempt` before
retrying — except after the last attempt, which only logs.  No branch raises
and no branch assigns the flag `false`. -/
def ensureGo (outcomes : Nat → AttemptOutcome) (maxRetries : Nat) :
    Nat → AgentContext → EnsureTrace
  | 0, ctx => { ctx := ctx, delays := [], attempts := 0 }
  | remaining + 1, ctx =>
    let attempt := maxRetries - (remaining + 1)
    match outcomes attempt with
    | .returnsA raw =>
      let status := pyLower (ensureResultStr raw)
      if (pyContains status "sent" || pyContains status "simulated") &&
         !pyContains status "failed" then
        { ctx := { ctx with emailSent := true }, delays := [], attempts := 1 }
      else if pyContains status "failed" then
        let t := ensureGo outcomes maxRetries remaining ctx
        { t with attempts := t.attempts + 1 }
      else if !pyContains status "error" && !pyContains status "exception" then
        { ctx := { ctx with emailSent := true }, delays := [], attempts := 1 }
      else
        let t := ensureGo outcomes maxRetries remaining ctx
        { t with attempts := t.attempts + 1 }
    | .raisesA _ =>
      if remaining > 0 then
        let t := ensureGo outcomes maxRetries remaining ctx
        { t with delays := 2 ^ attempt :: t.delays, attempts := t.attempts + 1 }
      else { ctx := ctx, delays := [], attempts := 1 }

/-- Model of `AgentLoop._ensure_email_sent` (lines 47–126) with its default
`max_retries = 3`.  (The call's arguments — receiver, sheet URL and title —
go to the external backend and do not influence the control flow here.) -/
def ensure_email_sent (outcomes : Nat → AttemptOutcome) (maxRetries : Nat)
    (ctx : AgentContext) : EnsureTrace :=
  ensureGo outcomes maxRetries maxRetries ctx

/-- Post-loop compensation guard (lines 414–417): run the retry pass exactly
when a sheet was tracked as created, the delivered flag is down, and a truthy
sheet URL is on hand. -/
def postProcess (comp : Nat → AttemptOutcome) (ctx : AgentContext) : EnsureTrace :=
  if ctx.sheetCreated && !ctx.emailSent && pyTruthy ctx.sheetUrl then
    ensure_email_sent comp 3 ctx
  else { ctx := ctx, delays := [], attempts := 0 }

/-- Line 419: `self.context.final_answer or "FINAL_ANSWER: [no result]"`
(Python truthiness: an unset answer and the empty string both fall back to
the placeholder). -/
def finalAnswerOrPlaceholder (ctx : AgentContext) : String :=
  match ctx.finalAnswer with
  | some s => if s = "" then "FINAL_ANSWER: [no result]" else s
  | none => "FINAL_ANSWER: [no result]"

/-- Observables of one whole `AgentLoop.run`. -/
structure RunTrace where
  ctx : AgentContext
  compDelays : List Nat
  compAttempts : Nat
  answer : String

/-- Model of `AgentLoop.run` (lines 128–419) from an arbitrary starting
context: the bounded step loop (whose escaped exceptions the outer handler at
line 411 swallows), then the compensation pass, then the final answer or its
placeholder.  The model is a total function: every collaborator exception is
explicit in the events, and no path of `run` itself raises. -/
def runFrom (tools : List ToolDesc) (events : Nat → StepEvent)
    (comp : Nat → AttemptOutcome) (maxSteps : Nat) (ctx0 : AgentContext) : RunTrace :=
  let ctx1 := runSteps tools events maxSteps 0 ctx0.userInput ctx0
  let tr := postProcess comp ctx1
  { ctx := tr.ctx, compDelays := tr.delays, compAttempts := tr.attempts,
    answer := finalAnswerOrPlaceholder tr.ctx }

/-- Model of a full agent run on a fresh context (`AgentLoop.__init__` +
`run`). -/
def agentRun (tools : List ToolDesc) (events : Nat → StepEvent)
    (comp : Nat → AttemptOutcome) (maxSteps : Nat) (sessionId userInput : String) : RunTrace :=
  runFrom tools events comp maxSteps (initialContext sessionId userInput)

/-! ## Concrete fixtures used by witnesses and counterexamples -/

/-- A delivery backend whose every attempt raises. -/
def allFailAttempts : Nat → AttemptOutcome := fun _ => .raisesA "simulated delivery failure"

/-- A context as the loop leaves it when the sheet was created but delivery
was never confirmed: the exact precondition of the compensation step. -/
def compCtx : AgentContext :=
  { sessionId := "session-1", userInput := "create a sheet and email it",
    step := 3, finalAnswer := some "FINAL_ANSWER: sheet created",
    sheetCreated := true,
    sheetUrl := .pstr "https://docs.google.com/spreadsheets/d/abc123",
    sheetTitle := .pstr "Report", emailSent := false, memory := [] }

/-- A connected client with one unresolved and one already-fulfilled slot. -/
def st0 : ClientState :=
  { requestCounter := 2, pending := [(1, .pendingF), (2, .okF .pnone)],
    sessionId := some "abc-123", sessionIdEventSet := true, currentEvent := none }

/-- A freshly connected client with an empty correlation table. -/
def st1 : ClientState :=
  { requestCounter := 0, pending := [], sessionId := some "abc-123",
    sessionIdEventSet := true, currentEvent := none }

/-- A step whose planner asks for the critical email tool and whose call then
raises with a transport-style message that names no email keyword. -/
def emailFailEvent : StepEvent :=
  { perception := .structuredP, retrieveRaises := none,
    plan := .lineD "FUNCTION_CALL: send_sheet_link|to=u",
    call := .raisesC "Connection refused" }

/-- A step whose perception raises (collaborator failure). -/
def idleEvent : StepEvent :=
  { perception := .raisesP "perception backend unavailable", retrieveRaises := none,
    plan := .lineD "", call := .raisesC "" }

/-- A context in which the delivered flag is already up. -/
def emailCtx : AgentContext :=
  { initialContext "session-2" "task" with emailSent := true }

/-! ## Association-table lemmas -/

/-- Updating a key then looking it up yields the written value. -/
theorem flookup_finsert_self {κ ν : Type} [DecidableEq κ] (k : κ) (v : ν) :
    ∀ l : List (κ × ν), flookup k (finsert k v l) = some v := by
  intro l
  induction l with
  | nil => simp [finsert, flookup]
  | cons p rest ih =>
    obtain ⟨k2, v2⟩ := p
    by_cases h : k = k2
    · simp [finsert, flookup, h]
    · simp [finsert, flookup, h, ih]

/-- Removing a key right after writing it removes exactly that binding. -/
theorem ferase_finsert {κ ν : Type} [DecidableEq κ] (k : κ) (v : ν) :
    ∀ l : List (κ × ν), ferase k (finsert k v l) = ferase k l := by
  intro l
  induction l with
  | nil => simp [finsert, ferase]
  | cons p rest ih =>
    obtain ⟨k2, v2⟩ := p
    by_cases h : k = k2
    · simp [finsert, ferase, h]
    · simp [finsert, ferase, h, ih]

/-- A key absent from the key list is absent from the table. -/
theorem flookup_eq_none_of_not_mem {κ ν : Type} [DecidableEq κ] (k : κ) :
    ∀ l : List (κ × ν), k ∉ l.map Prod.fst → flookup k l = none := by
  intro l
  induction l with
  | nil => intro _; rfl
  | cons p rest ih =>
    obtain ⟨k2, v2⟩ := p
    intro hmem
    have h1 : k ≠ k2 := by
      intro he
      exact hmem (by simp [he])
    have h2 : k ∉ rest.map Prod.fst := by
      intro hr
      exact hmem (by simp [hr])
    simp [flookup, h1, ih h2]

/-- In a duplicate-free table (every Python dict), removal makes the key
unfindable. -/
theorem flookup_ferase_self {κ ν : Type} [DecidableEq κ] (k : κ) :
    ∀ l : List (κ × ν), (l.map Prod.fst).Nodup → flookup k (ferase k l) = none := by
  intro l
  induction l with
  | nil => intro _; rfl
  | cons p rest ih =>
    obtain ⟨k2, v2⟩ := p
    intro hnd
    have hnd2 : (rest.map Prod.fst).Nodup := (List.nodup_cons.mp (by simpa using hnd)).2
    by_cases h : k = k2
    · have hout : k2 ∉ rest.map Prod.fst := (List.nodup_cons.mp (by simpa using hnd)).1
      subst h
      simpa [ferase] using flookup_eq_none_of_not_mem k rest hout
    · simp [ferase, flookup, h, ih hnd2]

/-- Writing a fresh key does not disturb other keys. -/
theorem flookup_finsert_ne {κ ν : Type} [DecidableEq κ] (k k2 : κ) (v : ν)
    (h : k ≠ k2) : ∀ l : List (κ × ν), flookup k (finsert k2 v l) = flookup k l := by
  intro l
  induction l with
  | nil => simp [finsert, flookup, h]
  | cons p rest ih =>
    obtain ⟨k3, v3⟩ := p
    by_cases h2 : k2 = k3
    · subst h2
      simp [finsert, flookup, h]
    · by_cases h3 : k = k3
      · simp [finsert, flookup, h2, h3]
      · simp [finsert, flookup, h2, h3, ih]

/-- Lookup through the stream-failure pass: an unresolved slot reads back as
failed with the stream error, a resolved slot reads back unchanged. -/
theorem flookup_failAll (k : Int) (msg : String) :
    ∀ l : List (Int × FutureState),
      flookup k (l.map (fun p => if futureDone p.2 then p else (p.1, .errF msg))) =
        (flookup k l).map (fun f => if futureDone f then f else .errF msg) := by
  intro l
  induction l with
  | nil => rfl
  | cons p rest ih =>
    obtain ⟨k2, f⟩ := p
    cases f <;> by_cases h : k = k2 <;> simp_all [flookup, futureDone]

/-! ## Claim theorems -/

/-- C7: for the instruction line `FUNCTION_CALL: add|a=5|b=7`, the decoder
returns tool name `add` and the argument map `a ↦ 5, b ↦ 7` with
integer-typed values, not strings. -/
theorem C7_parse_add_integer_args :
    parse_function_call "FUNCTION_CALL: add|a=5|b=7" =
      .ok ("add", [("a", PyVal.pint 5), ("b", PyVal.pint 7)]) := by
  rfl

/-- C8: for the instruction line
`FUNCTION_CALL: create_google_sheet|title="Report"|data_json=[["x","y"]]`,
the decoder returns tool `create_google_sheet` with the `_json` suffix
stripped from the key and the value decoded as embedded structured data;
and a pipe inside the embedded array is not treated as an argument
separator. -/
theorem C8_parse_sheet_json_args :
    parse_function_call
        "FUNCTION_CALL: create_google_sheet|title=\"Report\"|data_json=[[\"x\",\"y\"]]" =
      .ok ("create_google_sheet",
        [("title", PyVal.pstr "Report"),
         ("data", PyVal.plist [PyVal.plist [PyVal.pstr "x", PyVal.pstr "y"]])]) ∧
    parse_function_call
        "FUNCTION_CALL: create_google_sheet|title=\"Report\"|data_json=[[\"x|y\"]]" =
      .ok ("create_google_sheet",
        [("title", PyVal.pstr "Report"),
         ("data", PyVal.plist [PyVal.plist [PyVal.pstr "x|y"]])]) := by
  exact ⟨rfl, rfl⟩

/-- C6: a stream delivering `event: endpoint` followed by a data line whose
payload carries `session_id=abc-123` makes connection setup extract exactly
the token `abc-123`; the wait budget is the configured 5 seconds, and a
stream delivering no such event within the budget makes connection setup fail
with the connection-establishment timeout error. -/
theorem C6_endpoint_session_token :
    connectSse "http://localhost:8100/sse"
        ["event: endpoint",
         "data: http://localhost:8100/messages/?session_id=abc-123"] =
      .ok "abc-123" ∧
    sessionIdTimeoutSeconds = 5 ∧
    connectSse "http://localhost:8100/sse" [] =
      .error ("Failed to receive session_id from SSE server at " ++
        "http://localhost:8100/sse within 5 seconds. " ++
        "Make sure the server is running and accessible.") := by
  exact ⟨rfl, rfl, rfl⟩

/-- C4: when the background stream reader fails, every still-pending slot of
the client is failed with that same error in a single pass over the table
(its length and keys unchanged), while already-resolved slots keep their
values. -/
theorem C4_stream_failure_cancels_all (st : ClientState) (msg : String) (k : Int)
    (hk : flookup k st.pending = some .pendingF) :
    (failAllPending st msg).pending.length = st.pending.length ∧
    flookup k (failAllPending st msg).pending = some (.errF msg) ∧
    ∀ k2 f, futureDone f = true → flookup k2 st.pending = some f →
      flookup k2 (failAllPending st msg).pending = some f := by
  refine ⟨by simp [failAllPending], ?_, ?_⟩
  · rw [failAllPending, flookup_failAll, hk]
    rfl
  · intro k2 f hdone hlk
    rw [failAllPending, flookup_failAll, hlk]
    simp [hdone]

/-- Witness for C4 at a concrete client: slot 1 is unresolved and gets the
stream error, slot 2 is already fulfilled and is untouched. -/
theorem C4_stream_failure_cancels_all_witness :
    (failAllPending st0 "SSE stream error: disconnected").pending.length =
      st0.pending.length ∧
    flookup 1 (failAllPending st0 "SSE stream error: disconnected").pending =
      some (.errF "SSE stream error: disconnected") ∧
    flookup 2 (failAllPending st0 "SSE stream error: disconnected").pending =
      some (.okF .pnone) := by
  refine ⟨(C4_stream_failure_cancels_all st0 _ 1 rfl).1,
          (C4_stream_failure_cancels_all st0 _ 1 rfl).2.1,
          (C4_stream_failure_cancels_all st0 _ 1 rfl).2.2 2 (.okF .pnone) rfl rfl⟩

/-- C10: every `send_message` call keys its pending slot by the freshly
incremented request counter; a message lacking an `id` gets that counter
value written into it (the caller's dict is mutated to the posted form),
while a message already carrying an `id` is posted unchanged — so slot key
and wire id can then differ. -/
theorem C10_slot_keying (st : ClientState) (message : List (String × PyVal))
    (outcome : SendOutcome) (sid : String) (hs : st.sessionId = some sid) :
    (send_message st message outcome).slotKey = st.requestCounter + 1 ∧
    flookup (send_message st message outcome).slotKey
      (send_message st message outcome).registeredPending = some .pendingF ∧
    (flookup "id" message = none →
      (send_message st message outcome).wireMessage =
        finsert "id" (.pint (st.requestCounter + 1)) message) ∧
    (∀ v, flookup "id" message = some v →
      (send_message st message outcome).wireMessage = message) := by
  refine ⟨by simp [send_message, hs], ?_, ?_, ?_⟩
  · simp only [send_message, hs]
    exact flookup_finsert_self _ _ _
  · intro h
    simp [send_message, hs, h]
  · intro v h
    simp [send_message, hs, h]

/-- Witness for C10 at a concrete client: counter 0 yields slot key 1, and a
message already carrying id 99 is posted with id 99, different from the slot
key. -/
theorem C10_slot_keying_witness :
    (send_message st1 [("id", PyVal.pint 99)] .timeout).slotKey = 1 ∧
    (send_message st1 [("id", PyVal.pint 99)] .timeout).wireMessage =
      [("id", PyVal.pint 99)] ∧
    (99 : Int) ≠ 1 := by
  refine ⟨?_, ?_, by decide⟩
  · exact (C10_slot_keying st1 [("id", PyVal.pint 99)] .timeout "abc-123" rfl).1
  · exact (C10_slot_keying st1 [("id", PyVal.pint 99)] .timeout "abc-123" rfl).2.2.2
      (PyVal.pint 99) rfl

/-- C3: a `send_message` whose correlated response never arrives within the
configured 30-second wait raises the timeout error and removes its slot from
the pending table, so a response carrying that same id arriving afterwards is
ignored (the correlation step changes nothing and fulfils no waiter). -/
theorem C3_send_timeout (st : ClientState) (message : List (String × PyVal))
    (sid : String) (hs : st.sessionId = some sid)
    (hnd : (st.pending.map Prod.fst).Nodup) :
    (send_message st message .timeout).result =
      .error ("Request " ++ toString (st.requestCounter + 1) ++ " timed out") ∧
    flookup (st.requestCounter + 1) (send_message st message .timeout).state.pending = none ∧
    (∀ rest, correlate (send_message st message .timeout).state
        (.pdict (("id", PyVal.pint (st.requestCounter + 1)) :: rest)) =
      (send_message st message .timeout).state) ∧
    requestTimeoutSeconds = 30 := by
  have hpend : (send_message st message .timeout).state.pending =
      ferase (st.requestCounter + 1)
        (finsert (st.requestCounter + 1) .pendingF st.pending) := by
    simp [send_message, hs]
  have hnone : flookup (st.requestCounter + 1)
      (send_message st message .timeout).state.pending = none := by
    rw [hpend, ferase_finsert]
    exact flookup_ferase_self _ _ hnd
  refine ⟨by simp [send_message, hs], hnone, ?_, rfl⟩
  intro rest
  simp [correlate, flookup, hnone]

/-- Witness for C3 at a concrete client: the call times out with the
id-bearing message, the slot is gone, and a later response with the same id
is ignored. -/
theorem C3_send_timeout_witness :
    (send_message st1 [("method", PyVal.pstr "tools/list")] .timeout).result =
      .error "Request 1 timed out" ∧
    flookup 1 (send_message st1 [("method", PyVal.pstr "tools/list")] .timeout).state.pending = none ∧
    correlate (send_message st1 [("method", PyVal.pstr "tools/list")] .timeout).state
        (.pdict [("id", PyVal.pint 1)]) =
      (send_message st1 [("method", PyVal.pstr "tools/list")] .timeout).state ∧
    requestTimeoutSeconds = 30 := by
  have h := C3_send_timeout st1 [("method", PyVal.pstr "tools/list")] "abc-123" rfl
    (by simp [st1])
  exact ⟨h.1, h.2.1, h.2.2.1 [], h.2.2.2⟩

/-- C1 counterexample: with a sheet created, the delivery flag down, and a
delivery backend whose every attempt raises, the compensation step performs
its sleeps after attempts 1 and 2 only — the inter-attempt delays are 1 and
2 time units, not the 1, 2, 4 the claim states (three attempts have only two
gaps, and no sleep follows the final attempt). -/
theorem C1_counterexample :
    (postProcess allFailAttempts compCtx).delays = [1, 2] ∧
    [1, 2] ≠ [(1 : Nat), 2, 4] := by
  exact ⟨rfl, by decide⟩

/-- C1 (amended): if a sheet artifact was created but the email-sent flag was
never confirmed true, the post-loop compensation step performs exactly 3
delivery attempts; when every attempt raises, the two inter-attempt delays
are 1 and 2 time units (delay doubling starting at 1, with no delay after the
final attempt), the phase terminates without raising (the model of the
attempt loop is a total function, mirroring the per-attempt `except` handler
that swallows every attempt error), and the email-sent flag remains false. -/
theorem C1_compensation_three_attempts (ctx : AgentContext)
    (outcomes : Nat → AttemptOutcome) (msgs : Nat → String)
    (hsheet : ctx.sheetCreated = true) (hmail : ctx.emailSent = false)
    (hurl : pyTruthy ctx.sheetUrl = true)
    (hfail : ∀ k, outcomes k = .raisesA (msgs k)) :
    (postProcess outcomes ctx).attempts = 3 ∧
    (postProcess outcomes ctx).delays = [1, 2] ∧
    (postProcess outcomes ctx).ctx.emailSent = false := by
  have ho : outcomes = fun k => AttemptOutcome.raisesA (msgs k) := funext hfail
  subst ho
  have hg : postProcess (fun k => AttemptOutcome.raisesA (msgs k)) ctx =
      ensureGo (fun k => AttemptOutcome.raisesA (msgs k)) 3 3 ctx := by
    simp [postProcess, hsheet, hmail, hurl, ensure_email_sent]
  rw [hg]
  refine ⟨rfl, rfl, ?_⟩
  show ctx.emailSent = false
  exact hmail

/-- Witness for C1 (amended) at the concrete compensation context and the
all-raising delivery backend. -/
theorem C1_compensation_three_attempts_witness :
    (postProcess allFailAttempts compCtx).attempts = 3 ∧
    (postProcess allFailAttempts compCtx).delays = [1, 2] ∧
    (postProcess allFailAttempts compCtx).ctx.emailSent = false :=
  C1_compensation_three_attempts compCtx allFailAttempts
    (fun _ => "simulated delivery failure") rfl rfl rfl (fun _ => rfl)

/-- C2 counterexample: a step whose failing tool is the critical email tool
(`send_sheet_link`, as the decoded plan line shows) but whose exception text
is a plain transport message breaks the loop immediately with no tool-error
memory recorded — the loop does not continue for this email-tool failure, so
continuation is not equivalent to the failing tool's category. -/
theorem C2_counterexample :
    parse_function_call "FUNCTION_CALL: send_sheet_link|to=u" =
      .ok ("send_sheet_link", [("to", PyVal.pstr "u")]) ∧
    stepResult [] emailFailEvent "q" (initialContext "s" "u") =
      .brkS (initialContext "s" "u") := by
  exact ⟨rfl, rfl⟩

/-- C2 (amended): for every step whose tool call raises, the loop continues
— recording a `tool_error` MemoryItem (with tool name hardcoded to
`send_sheet_link`) and rewriting the next query to mention the failure — if
and only if the lowercased exception message contains `send_sheet_link`,
`send_email`, or `gmail`; otherwise it breaks immediately, leaving the
context (and any recorded final answer) untouched.  The decision inspects
the message text, not the failing tool's identity. -/
theorem C2_tool_failure_by_message (tools : List ToolDesc) (plan query msg : String)
    (ctx : AgentContext) (tn : String) (args : List (String × PyVal))
    (hp : parse_function_call plan = .ok (tn, args)) :
    actStep tools (.raisesC msg) plan query ctx =
      (if emailErrorKeyword msg then
        StepOutcome.contS
          { ctx with memory := ctx.memory ++
              [{ text := "Email sending failed: " ++ msg, mtype := "tool_error",
                 toolName := "send_sheet_link", userQuery := query,
                 tags := ["email_error"], sessionId := ctx.sessionId }] }
          (errorQueryTemplate ctx.userInput msg)
      else StepOutcome.brkS ctx) := by
  unfold actStep
  rw [hp]
  rfl

/-- Witness for C2 (amended): a message naming `gmail` makes the step
continue with the error memory and the rewritten query. -/
theorem C2_tool_failure_by_message_witness :
    actStep [] (.raisesC "gmail: quota exceeded")
        "FUNCTION_CALL: send_sheet_link|to=u" "q" (initialContext "s" "u") =
      StepOutcome.contS
        { initialContext "s" "u" with memory :=
            [{ text := "Email sending failed: gmail: quota exceeded",
               mtype := "tool_error", toolName := "send_sheet_link",
               userQuery := "q", tags := ["email_error"], sessionId := "s" }] }
        (errorQueryTemplate "u" "gmail: quota exceeded") := by
  have h := C2_tool_failure_by_message [] "FUNCTION_CALL: send_sheet_link|to=u" "q"
    "gmail: quota exceeded" (initialContext "s" "u") "send_sheet_link"
    [("to", PyVal.pstr "u")] rfl
  exact h.trans (by rfl)

/-! ## Preservation lemmas for the loop invariants -/

/-- A string led by the final-answer marker is nonempty. -/
theorem ne_empty_of_startsWith_final (s : String)
    (h : pyStartsWith s "FINAL_ANSWER:" = true) : s ≠ "" := by
  intro he
  subst he
  exact absurd h (by decide)

/-- The last element of a list is a member. -/
theorem mem_of_getLast?_eq {α : Type} {l : List α} {a : α}
    (h : l.getLast? = some a) : a ∈ l := by
  obtain ⟨hne, heq⟩ := List.mem_getLast?_eq_getLast
    (show a ∈ l.getLast? from by simp [Option.mem_def, h])
  subst heq
  exact List.getLast_mem hne

/-- Sheet tracking never touches the final answer. -/
theorem applySheetTracking_finalAnswer (ctx : AgentContext) (tr : Option (PyVal × PyVal)) :
    (applySheetTracking ctx tr).finalAnswer = ctx.finalAnswer := by
  rcases tr with - | ⟨url, title⟩
  · rfl
  · simp only [applySheetTracking]
    split_ifs <;> rfl

/-- Sheet tracking never touches the delivered flag. -/
theorem applySheetTracking_emailSent (ctx : AgentContext) (tr : Option (PyVal × PyVal)) :
    (applySheetTracking ctx tr).emailSent = ctx.emailSent := by
  rcases tr with - | ⟨url, title⟩
  · rfl
  · simp only [applySheetTracking]
    split_ifs <;> rfl

/-- Email tracking never lowers the delivered flag. -/
theorem trackEmail_true (ro rs : PyVal) : trackEmail ro rs true = true := by
  cases ro <;> simp [trackEmail]

/-- Tool execution never writes the final answer. -/
theorem actStep_finalAnswer (tools : List ToolDesc) (call : CallOutcome)
    (plan query : String) (ctx : AgentContext) :
    (outCtx (actStep tools call plan query ctx)).finalAnswer = ctx.finalAnswer := by
  unfold actStep
  cases hp : parse_function_call plan with
  | error e =>
    unfold toolErrorStep
    dsimp only [outCtx]
    split_ifs <;> rfl
  | ok p =>
    obtain ⟨tn, args⟩ := p
    cases call with
    | raisesC msg =>
      unfold toolErrorStep
      dsimp only [outCtx]
      split_ifs <;> rfl
    | returnsC raw =>
      dsimp only [outCtx]
      split_ifs <;> simp [applySheetTracking_finalAnswer]

/-- Tool execution never lowers the delivered flag. -/
theorem actStep_email_mono (tools : List ToolDesc) (call : CallOutcome)
    (plan query : String) (ctx : AgentContext) (h : ctx.emailSent = true) :
    (outCtx (actStep tools call plan query ctx)).emailSent = true := by
  unfold actStep
  cases hp : parse_function_call plan with
  | error e =>
    unfold toolErrorStep
    dsimp only [outCtx]
    split_ifs <;> simpa using h
  | ok p =>
    obtain ⟨tn, args⟩ := p
    cases call with
    | raisesC msg =>
      unfold toolErrorStep
      dsimp only [outCtx]
      split_ifs <;> simpa using h
    | returnsC raw =>
      dsimp only [outCtx]
      split_ifs <;> simp [applySheetTracking_emailSent, trackEmail_true, h]

/-- The post-perception phase keeps recorded answers nonempty. -/
theorem afterPerception_answerOk (tools : List ToolDesc) (ev : StepEvent)
    (query : String) (ctx : AgentContext) (h : answerOk ctx.finalAnswer) :
    answerOk (outCtx (afterPerception tools ev query ctx)).finalAnswer := by
  unfold afterPerception
  cases ev.retrieveRaises with
  | some m => exact h
  | none =>
    cases ev.plan with
    | raisesD m => exact h
    | lineD plan =>
      dsimp only
      by_cases hfin : pyContains plan "FINAL_ANSWER:" = true
      · rw [if_pos hfin]
        cases hl : ((pySplitlines plan).filter
            (fun l => pyStartsWith (pyStrip l) "FINAL_ANSWER:")).getLast? with
        | some l =>
          have hmem := mem_of_getLast?_eq hl
          have hpred := List.of_mem_filter hmem
          exact ne_empty_of_startsWith_final _ hpred
        | none =>
          dsimp only [outCtx, answerOk]
          decide
      · rw [if_neg hfin, actStep_finalAnswer]
        exact h

/-- The post-perception phase never lowers the delivered flag. -/
theorem afterPerception_email_mono (tools : List ToolDesc) (ev : StepEvent)
    (query : String) (ctx : AgentContext) (h : ctx.emailSent = true) :
    (outCtx (afterPerception tools ev query ctx)).emailSent = true := by
  unfold afterPerception
  cases ev.retrieveRaises with
  | some m => exact h
  | none =>
    cases ev.plan with
    | raisesD m => exact h
    | lineD plan =>
      dsimp only
      by_cases hfin : pyContains plan "FINAL_ANSWER:" = true
      · rw [if_pos hfin]
        cases ((pySplitlines plan).filter
            (fun l => pyStartsWith (pyStrip l) "FINAL_ANSWER:")).getLast? <;>
          simpa [outCtx] using h
      · rw [if_neg hfin]
        exact actStep_email_mono tools ev.call plan query ctx h

/-- One loop step keeps recorded answers nonempty. -/
theorem stepResult_answerOk (tools : List ToolDesc) (ev : StepEvent)
    (query : String) (ctx : AgentContext) (h : answerOk ctx.finalAnswer) :
    answerOk (outCtx (stepResult tools ev query ctx)).finalAnswer := by
  unfold stepResult
  cases ev.perception with
  | raisesP m => exact h
  | structuredP => exact afterPerception_answerOk tools ev query ctx h
  | otherP pydOk =>
    cases pydOk
    · exact h
    · exact afterPerception_answerOk tools ev query ctx h
  | strP s pydOk =>
    dsimp only
    by_cases h1 : pyStartsWith (pyStrip s) "FINAL_ANSWER:" = true
    · rw [if_pos h1]
      exact ne_empty_of_startsWith_final _ h1
    · rw [if_neg h1]
      by_cases h2 : (pyContains (pyStrip s) "Your last tool produced this result" ||
          pyContains (pyStrip s) "Original user task:") = true
      · rw [if_pos h2]
        dsimp only [outCtx, answerOk]
        decide
      · rw [if_neg h2]
        cases json_loads (pyStrip s) with
        | none =>
          dsimp only [outCtx, answerOk]
          decide
        | some v =>
          cases v with
          | pstr s2 =>
            dsimp only
            cases json_loads s2 with
            | none => exact h
            | some v2 =>
              cases v2 with
              | pdict d =>
                cases pydOk
                · exact h
                · exact afterPerception_answerOk tools ev query ctx h
              | pnone => exact h
              | pbool b => exact h
              | pint n => exact h
              | pstr s3 => exact h
              | plist xs => exact h
          | pdict d =>
            cases pydOk
            · exact h
            · exact afterPerception_answerOk tools ev query ctx h
          | pnone => exact h
          | pbool b => exact h
          | pint n => exact h
          | plist xs => exact h

/-- One loop step never lowers the delivered flag. -/
theorem stepResult_email_mono (tools : List ToolDesc) (ev : StepEvent)
    (query : String) (ctx : AgentContext) (h : ctx.emailSent = true) :
    (outCtx (stepResult tools ev query ctx)).emailSent = true := by
  unfold stepResult
  cases ev.perception with
  | raisesP m => exact h
  | structuredP => exact afterPerception_email_mono tools ev query ctx h
  | otherP pydOk =>
    cases pydOk
    · exact h
    · exact afterPerception_email_mono tools ev query ctx h
  | strP s pydOk =>
    dsimp only
    by_cases h1 : pyStartsWith (pyStrip s) "FINAL_ANSWER:" = true
    · rw [if_pos h1]
      exact h
    · rw [if_neg h1]
      by_cases h2 : (pyContains (pyStrip s) "Your last tool produced this result" ||
          pyContains (pyStrip s) "Original user task:") = true
      · rw [if_pos h2]
        exact h
      · rw [if_neg h2]
        cases json_loads (pyStrip s) with
        | none => exact h
        | some v =>
          cases v with
          | pstr s2 =>
            dsimp only
            cases json_loads s2 with
            | none => exact h
            | some v2 =>
              cases v2 with
              | pdict d =>
                cases pydOk
                · exact h
                · exact afterPerception_email_mono tools ev query ctx h
              | pnone => exact h
              | pbool b => exact h
              | pint n => exact h
              | pstr s3 => exact h
              | plist xs => exact h
          | pdict d =>
            cases pydOk
            · exact h
            · exact afterPerception_email_mono tools ev query ctx h
          | pnone => exact h
          | pbool b => exact h
          | pint n => exact h
          | plist xs => exact h

/-- The bounded loop keeps recorded answers nonempty. -/
theorem runSteps_answerOk (tools : List ToolDesc) (events : Nat → StepEvent) :
    ∀ (remaining i : Nat) (query : String) (ctx : AgentContext),
      answerOk ctx.finalAnswer →
      answerOk (runSteps tools events remaining i query ctx).finalAnswer := by
  intro remaining
  induction remaining with
  | zero => intro i q ctx h; exact h
  | succ r ih =>
    intro i q ctx h
    unfold runSteps
    dsimp only
    have h1 : answerOk ({ ctx with step := i } : AgentContext).finalAnswer := h
    cases hs : stepResult tools (events i) q { ctx with step := i } with
    | contS c2 q2 =>
      have h2 := stepResult_answerOk tools (events i) q { ctx with step := i } h1
      rw [hs] at h2
      exact ih (i + 1) q2 c2 h2
    | brkS c2 =>
      have h2 := stepResult_answerOk tools (events i) q { ctx with step := i } h1
      rw [hs] at h2
      exact h2
    | abortS c2 =>
      have h2 := stepResult_answerOk tools (events i) q { ctx with step := i } h1
      rw [hs] at h2
      exact h2

/-- The bounded loop never lowers the delivered flag. -/
theorem runSteps_email_mono (tools : List ToolDesc) (events : Nat → StepEvent) :
    ∀ (remaining i : Nat) (query : String) (ctx : AgentContext),
      ctx.emailSent = true →
      (runSteps tools events remaining i query ctx).emailSent = true := by
  intro remaining
  induction remaining with
  | zero => intro i q ctx h; exact h
  | succ r ih =>
    intro i q ctx h
    unfold runSteps
    dsimp only
    have h1 : ({ ctx with step := i } : AgentContext).emailSent = true := h
    cases hs : stepResult tools (events i) q { ctx with step := i } with
    | contS c2 q2 =>
      have h2 := stepResult_email_mono tools (events i) q { ctx with step := i } h1
      rw [hs] at h2
      exact ih (i + 1) q2 c2 h2
    | brkS c2 =>
      have h2 := stepResult_email_mono tools (events i) q { ctx with step := i } h1
      rw [hs] at h2
      exact h2
    | abortS c2 =>
      have h2 := stepResult_email_mono tools (events i) q { ctx with step := i } h1
      rw [hs] at h2
      exact h2

/-- The compensation retry loop never touches the final answer. -/
theorem ensureGo_finalAnswer (outcomes : Nat → AttemptOutcome) (m : Nat) :
    ∀ (r : Nat) (ctx : AgentContext),
      (ensureGo outcomes m r ctx).ctx.finalAnswer = ctx.finalAnswer := by
  intro r
  induction r with
  | zero => intro ctx; rfl
  | succ r ih =>
    intro ctx
    unfold ensureGo
    dsimp only
    cases houtcome : outcomes (m - (r + 1)) with
    | raisesA msg =>
      dsimp only
      split_ifs <;> simp [ih]
    | returnsA raw =>
      dsimp only
      split_ifs <;> simp [ih]

/-- The compensation retry loop never lowers the delivered flag. -/
theorem ensureGo_email_mono (outcomes : Nat → AttemptOutcome) (m : Nat) :
    ∀ (r : Nat) (ctx : AgentContext), ctx.emailSent = true →
      (ensureGo outcomes m r ctx).ctx.emailSent = true := by
  intro r
  induction r with
  | zero => intro ctx h; exact h
  | succ r ih =>
    intro ctx h
    unfold ensureGo
    dsimp only
    cases houtcome : outcomes (m - (r + 1)) with
    | raisesA msg =>
      dsimp only
      split_ifs <;> simp [ih ctx h, h]
    | returnsA raw =>
      dsimp only
      split_ifs <;> simp [ih ctx h, h]

/-- Post-processing never touches the final answer. -/
theorem postProcess_finalAnswer (comp : Nat → AttemptOutcome) (ctx : AgentContext) :
    (postProcess comp ctx).ctx.finalAnswer = ctx.finalAnswer := by
  unfold postProcess
  split_ifs
  · exact ensureGo_finalAnswer comp 3 3 ctx
  · rfl

/-- Post-processing never lowers the delivered flag. -/
theorem postProcess_email_mono (comp : Nat → AttemptOutcome) (ctx : AgentContext)
    (h : ctx.emailSent = true) :
    (postProcess comp ctx).ctx.emailSent = true := by
  unfold postProcess
  split_ifs
  · exact ensureGo_email_mono comp 3 3 ctx h
  · exact h

/-- C5: for every behavior of the external collaborators (including all their
exceptions, which the model makes explicit), a full agent run is a total
function returning a final-answer string — the last recorded final answer,
or the fixed placeholder `FINAL_ANSWER: [no result]` when none was ever set
(e.g. an exhausted step budget). -/
theorem C5_run_total_final_answer (tools : List ToolDesc) (events : Nat → StepEvent)
    (comp : Nat → AttemptOutcome) (maxSteps : Nat) (sessionId userInput : String) :
    (agentRun tools events comp maxSteps sessionId userInput).answer =
      match (agentRun tools events comp maxSteps sessionId userInput).ctx.finalAnswer with
      | some s => s
      | none => "FINAL_ANSWER: [no result]" := by
  have h0 : answerOk (initialContext sessionId userInput).finalAnswer := trivial
  have h1 := runSteps_answerOk tools events maxSteps 0
    (initialContext sessionId userInput).userInput (initialContext sessionId userInput) h0
  show finalAnswerOrPlaceholder (postProcess comp _).ctx =
    match (postProcess comp _).ctx.finalAnswer with
    | some s => s
    | none => "FINAL_ANSWER: [no result]"
  rw [finalAnswerOrPlaceholder, postProcess_finalAnswer]
  cases hfa : (runSteps tools events maxSteps 0 (initialContext sessionId userInput).userInput
      (initialContext sessionId userInput)).finalAnswer with
  | none => rfl
  | some s =>
    rw [hfa] at h1
    have hs : s ≠ "" := h1
    simp [hs]

/-- C9: the email-sent flag of an `AgentContext` is never reset by any
operation of the control loop or the compensation step: once true it stays
true through the whole remaining run (and being boolean, it therefore
transitions false→true at most once per run). -/
theorem C9_email_flag_monotone (tools : List ToolDesc) (events : Nat → StepEvent)
    (comp : Nat → AttemptOutcome) (maxSteps : Nat) (ctx : AgentContext)
    (h : ctx.emailSent = true) :
    (runFrom tools events comp maxSteps ctx).ctx.emailSent = true := by
  have h1 := runSteps_email_mono tools events maxSteps 0 ctx.userInput ctx h
  exact postProcess_email_mono comp _ h1

/-- Witness for C9: a context with the flag up keeps it up through a run with
failing collaborators and a failing delivery backend. -/
theorem C9_email_flag_monotone_witness :
    emailCtx.emailSent = true ∧
    (runFrom [] (fun _ => idleEvent) allFailAttempts 5 emailCtx).ctx.emailSent = true :=
  ⟨rfl, C9_email_flag_monotone [] (fun _ => idleEvent) allFailAttempts 5 emailCtx rfl⟩

end Agent






